import Mathlib

/-!
Shallow embedding of the PoolParty trip-time estimation subsystem
(`app/geo.py` and the ETA/detour logic of `app/main.py`).

Python floats are modelled as rationals (`ℚ`), Python ints as `ℤ`,
`None` as `Option.none`.  `datetime` values are modelled as integer
timestamps in seconds, so `t + timedelta(seconds = d)` becomes `t + d`.
The only transcendental computation, `haversine_miles`, is modelled over
the reals in a separate section; everywhere the callers in `main.py` use
its result, the embedded functions take that result as an explicit
`miles : Option ℚ` argument (within one request handler every
`haversine_miles` call is applied to the same origin/destination pair,
so a single argument stands for all of those calls).

Network I/O (the `requests` calls inside the provider adapters) is
modelled by oracle arguments: each adapter receives the parsed value its
HTTP request would have produced (`none` for any transport error,
non-2xx response, empty result set, or missing field — the adapters
convert all of those to `None`).
-/

namespace PoolParty

/-- Python's builtin `round` on a rational: round half to even. -/
def pyround (x : ℚ) : ℤ :=
  let f := Int.floor x
  let r := x - (f : ℚ)
  if r < 1/2 then f
  else if 1/2 < r then f + 1
  else if f % 2 = 0 then f else f + 1

/-- Source: `geo.py` routing adapters return `{"distance_meters": ..., "duration_seconds": ...}`
where either field may be `None` (provider responded without that metric). -/
structure RouteResult where
  distance_meters : Option ℚ
  duration_seconds : Option ℚ
deriving DecidableEq

/-- Python truthiness for an optional float: `None` and `0.0` are falsy. -/
def truthyQ : Option ℚ → Bool
  | none => false
  | some v => if v = 0 then false else true

/-- Python truthiness for an optional int: `None` and `0` are falsy. -/
def truthyZ : Option ℤ → Bool
  | none => false
  | some v => if v = 0 then false else true

/-- Source: `geo.estimate_duration_seconds_from_meters(distance_meters, avg_speed_mph=35)`:
meters per second = mph * 0.44704; `None` if the distance is absent or the
speed is non-positive; otherwise `int(round(distance / avg_mps))`. -/
def estimate_duration_seconds_from_meters (distance_meters : Option ℚ) (avg_speed_mph : ℚ) : Option ℤ :=
  match distance_meters with
  | none => none
  | some d =>
    let avg_mps := avg_speed_mph * (44704/100000)
    if avg_mps ≤ 0 then none
    else some (pyround (d / avg_mps))

/-- The recurring `main.py` fallback pattern
`estimate_duration_seconds_from_meters(miles * 1609.344) if miles is not None else None`. -/
def est_from_miles (miles : Option ℚ) : Option ℤ :=
  match miles with
  | none => none
  | some m => estimate_duration_seconds_from_meters (some (m * (1609344/1000))) 35

/-- Source: `geo.route_result_is_reasonable(route, lat1, lon1, lat2, lon2,
max_duration_seconds=86400, max_distance_ratio=10.0)`.  The `miles`
argument stands for `haversine_miles(lat1, lon1, lat2, lon2)` (the only
use the source makes of the four coordinates).  `maxDistanceFactor` is
the source's `max_distance_ratio` parameter. -/
def route_result_is_reasonable (route : Option RouteResult) (miles : Option ℚ)
    (max_duration_seconds : ℚ) (maxDistanceFactor : ℚ) : Bool :=
  match route with
  | none => false
  | some r =>
    match r.duration_seconds, r.distance_meters with
    | some dur, some dist =>
      if max_duration_seconds < dur then false
      else
        match miles with
        | none => true
        | some m =>
          let straight_m := m * (1609344/1000)
          if straight_m ≤ 0 then true
          else if maxDistanceFactor < dist / straight_m then false
          else
            match estimate_duration_seconds_from_meters (some straight_m) 35 with
            | none => true
            | some est_dur =>
              if est_dur = 0 then true
              else if (5 : ℚ) < dur / (est_dur : ℚ) then false
              else true
    | _, _ => true

/-- The ETA human-format idiom of `main.py`:
`hours, rem = divmod(dur, 3600); mins = rem // 60;`
`f"{hours}h {mins}m" if hours else f"{mins}m"` (Python floor division). -/
def humanize (dur : ℤ) : String :=
  let hours := Int.fdiv dur 3600
  let rem := Int.fmod dur 3600
  let mins := Int.fdiv rem 60
  if hours = 0 then toString mins ++ "m"
  else toString hours ++ "h " ++ toString mins ++ "m"


/-! ## Routing gateway (`geo.py` lines 127-298)

Each adapter takes the presence of its credential (Python truthiness of
the environment variable), the coordinate list, and a `net` oracle: the
`RouteResult` its HTTP request would have produced (`none` on any
transport error, non-2xx response, or empty `routes`/`features` list). -/

/-- Source: `geo.route_mapbox(coords)`: returns `None` when `MAPBOX_TOKEN` is
absent (no request is made) or when fewer than 2 coordinates are given;
otherwise the parsed provider response. -/
def route_mapbox (hasToken : Bool) (coords : List (ℚ × ℚ)) (net : Option RouteResult) :
    Option RouteResult :=
  if hasToken = false then none
  else if coords.length < 2 then none
  else net

/-- Number of HTTP requests `geo.route_mapbox` issues: 0 when the token is
absent or the coordinate list is too short (it returns before building the
request), 1 otherwise. -/
def route_mapbox_request_count (hasToken : Bool) (coords : List (ℚ × ℚ)) : ℕ :=
  if hasToken = false then 0
  else if coords.length < 2 then 0
  else 1

/-- Source: `geo.route_ors(coords)`: `None` without `ORS_API_KEY` or with fewer
than 2 coordinates; otherwise the parsed provider response. -/
def route_ors (hasKey : Bool) (coords : List (ℚ × ℚ)) (net : Option RouteResult) :
    Option RouteResult :=
  if hasKey = false then none
  else if coords.length < 2 then none
  else net

/-- Source: `geo.route_osrm(coords)`: no credential needed; `None` with fewer than
2 coordinates; otherwise the parsed provider response. -/
def route_osrm (coords : List (ℚ × ℚ)) (net : Option RouteResult) : Option RouteResult :=
  if coords.length < 2 then none
  else net

/-- Source: `geo.route_any(coords)`: try Mapbox (only when its token is set), then
ORS (only when its key is set), then OSRM; return the first truthy result
(an adapter result is a nonempty dict, so truthy iff not `None`). -/
def route_any (hasMapbox hasOrs : Bool) (coords : List (ℚ × ℚ))
    (mapNet orsNet osrmNet : Option RouteResult) : Option RouteResult :=
  match (if hasMapbox then route_mapbox hasMapbox coords mapNet else none) with
  | some m => some m
  | none =>
    match (if hasOrs then route_ors hasOrs coords orsNet else none) with
    | some o => some o
    | none => route_osrm coords osrmNet

/-! ## Geocoding gateway (`geo.py` lines 21-124)

Each adapter returns the `(lat, lon)` pair of the first feature of its
provider response, or `(None, None)` on failure.  The `net` oracle is the
parsed `(lat, lon)` of a successful request, `none` otherwise. -/

/-- Source: `geo.geocode_ors(address)`: `(None, None)` for a falsy address or a
missing `ORS_API_KEY`; otherwise the parsed response. -/
def geocode_ors (hasKey : Bool) (address : String) (net : Option (ℚ × ℚ)) :
    Option ℚ × Option ℚ :=
  if address = "" ∨ hasKey = false then (none, none)
  else
    match net with
    | some lc => (some lc.1, some lc.2)
    | none => (none, none)

/-- Source: `geo.geocode_nominatim(address)`: `(None, None)` for a falsy address;
otherwise the parsed response. -/
def geocode_nominatim (address : String) (net : Option (ℚ × ℚ)) : Option ℚ × Option ℚ :=
  if address = "" then (none, none)
  else
    match net with
    | some lc => (some lc.1, some lc.2)
    | none => (none, none)

/-- Source: `geo.geocode_mapbox(address)`: `(None, None)` for a falsy address;
falls back to Nominatim when `MAPBOX_TOKEN` is absent; otherwise the
parsed response of its own request. -/
def geocode_mapbox (hasToken : Bool) (address : String) (net nomNet : Option (ℚ × ℚ)) :
    Option ℚ × Option ℚ :=
  if address = "" then (none, none)
  else if hasToken = false then geocode_nominatim address nomNet
  else
    match net with
    | some lc => (some lc.1, some lc.2)
    | none => (none, none)

/-- Python truthiness of `lat and lon` for two optional floats
(the success test `if lat and lon:` used throughout the source). -/
def truthyPair (lat lon : Option ℚ) : Bool :=
  truthyQ lat && truthyQ lon

/-- Source: `geo.geocode_any(address)`: `(None, None, None)` for a falsy address;
else try ORS when its key is set, then Mapbox (whose adapter internally
falls back to Nominatim when the token is absent, in which case the
provider label is `'nominatim'`), then Nominatim explicitly; return on the
first result passing `if lat and lon:`; else `(None, None, None)`. -/
def geocode_any (hasOrs hasMapbox : Bool) (address : String)
    (orsNet mapNet nomNet : Option (ℚ × ℚ)) :
    Option ℚ × Option ℚ × Option String :=
  if address = "" then (none, none, none)
  else
    let o := if hasOrs then geocode_ors hasOrs address orsNet else (none, none)
    if truthyPair o.1 o.2 then (o.1, o.2, some "ors")
    else
      let mb := geocode_mapbox hasMapbox address mapNet nomNet
      if truthyPair mb.1 mb.2 then
        (mb.1, mb.2, some (if hasMapbox then "mapbox" else "nominatim"))
      else
        let nm := geocode_nominatim address nomNet
        if truthyPair nm.1 nm.2 then (nm.1, nm.2, some "nominatim")
        else (none, none, none)

/-! ## Detour computation (`main.py` `manage`, lines 495-542)

For one pending join request: geocode the requester's pickup address,
and when the result passes `if plat and plong:` compute the base
duration (route origin→destination, falling back to a great-circle
estimate) and the detour duration (route origin→pickup→destination,
falling back to the sum of two great-circle legs), then the added time.
`milesOD` stands for `haversine_miles(origin, destination)`, `m1` for
`haversine_miles(origin, pickup)` and `m2` for
`haversine_miles(pickup, destination)`. -/

/-- The idiom `int(round(r.get('duration_seconds')))` guarded by
`if r and r.get('duration_seconds'):` (a zero or missing duration is
falsy and routes to the fallback). -/
def routeDur (r : Option RouteResult) : Option ℤ :=
  match r with
  | some rr =>
    match rr.duration_seconds with
    | some q => if q = 0 then none else some (pyround q)
    | none => none
  | none => none

/-- Source: `main.py` lines 507-512: base duration from the base route, else from
the origin→destination great-circle distance. -/
def manageBaseDur (baseRoute : Option RouteResult) (milesOD : Option ℚ) : Option ℤ :=
  match routeDur baseRoute with
  | some v => some v
  | none => est_from_miles milesOD

/-- Source: `main.py` lines 514-530: detour duration from the detour route, else
from the sum of the two great-circle legs. -/
def manageDetourDur (detourRoute : Option RouteResult) (m1 m2 : Option ℚ) : Option ℤ :=
  match routeDur detourRoute with
  | some v => some v
  | none =>
    match m1, m2 with
    | some x, some y => estimate_duration_seconds_from_meters (some ((x + y) * (1609344/1000))) 35
    | _, _ => none

/-- Source: `main.py` lines 532-539: `added = detour_dur - base_dur`, clamped to 0
when negative, with its human rendering; `(None, None)` when either
duration is unavailable (`jr.added_seconds`/`jr.added_human` keep the
`None` they were initialised with at lines 497-498). -/
def addedFrom (base_dur detour_dur : Option ℤ) : Option ℤ × Option String :=
  match base_dur, detour_dur with
  | some b, some d =>
    let added := d - b
    let clamped := if added < 0 then 0 else added
    (some clamped, some (humanize clamped))
  | _, _ => (none, none)

/-- Source: `main.py` lines 504-539: the full detour computation for one request,
entered only when the geocoded pickup passes `if plat and plong:`. -/
def manageAdded (plat plong : Option ℚ) (baseRoute detourRoute : Option RouteResult)
    (milesOD m1 m2 : Option ℚ) : Option ℤ × Option String :=
  if truthyPair plat plong then
    addedFrom (manageBaseDur baseRoute milesOD) (manageDetourDur detourRoute m1 m2)
  else (none, none)

/-! ## ETA resolution in `listings` (`main.py` lines 70-236, 270-271)

Per-pool read-time ETA resolution.  The `miles` argument stands for
`haversine_miles(p.origin_lat, p.origin_lng, p.dest_lat, p.dest_lng)`
(every `haversine_miles` call in this block is applied to that same
pair).  `route1` is the oracle for the `route_any` call at line 101 and
`route2` for the second `route_any` call at line 204 (the cost block).
The pickup-timing section (lines 238-268) writes only the `pickup_*`
attributes and never touches the ETA fields, so it is not modelled. -/

/-- The fields of a `Pool` record read by the `listings` ETA resolution. -/
structure PoolIn where
  eta_seconds : Option ℤ
  depart_time : Option ℤ
  seats : Option ℤ
  origin_lat : Option ℚ
  origin_lng : Option ℚ
  dest_lat : Option ℚ
  dest_lng : Option ℚ
deriving DecidableEq

/-- The attributes `listings` attaches to a pool before rendering
(`none` models an attribute left at `None` or never set).
`network_calls` counts the `route_any` invocations the resolution makes
(each one issues at least one provider request for a 2-coordinate list,
since OSRM needs no credential). -/
structure ListingOut where
  eta_seconds : Option ℤ
  eta_human : Option String
  eta_arrival : Option ℤ
  eta_seconds_display : Option ℤ
  eta_human_display : Option String
  eta_arrival_display : Option ℤ
  eta_flagged : Bool
  travel_distance_miles : Option ℚ
  cost_total : Option ℚ
  cost_per_rider : Option ℚ
  network_calls : ℕ
deriving DecidableEq

/-- Source: `p.origin_lat and p.origin_lng and p.dest_lat and p.dest_lng`
(line 100, repeated at lines 171 and 201). -/
def coordsTruthy (p : PoolIn) : Bool :=
  truthyQ p.origin_lat && truthyQ p.origin_lng && truthyQ p.dest_lat && truthyQ p.dest_lng

/-- Python `round(x, 2)` (used for the cost figures). -/
def round2 (x : ℚ) : ℚ :=
  (pyround (x * 100) : ℚ) / 100

/-- Source: `int(p.seats) if (hasattr(p, 'seats') and p.seats and int(p.seats) > 0) else 1`
(lines 157-160 and 223-227). -/
def seatsEff (p : PoolIn) : ℤ :=
  match p.seats with
  | some s => if 0 < s then s else 1
  | none => 1

/-- Lines 83-92 (and 124-133): store a truthy duration with its human
string, and the arrival when `depart_time` is known. -/
def setEta (dur : Option ℤ) (depart : Option ℤ) : Option ℤ × Option String × Option ℤ :=
  match dur with
  | some d =>
    if d = 0 then (none, none, none)
    else (some d, some (humanize d), depart.map (fun t => t + d))
  | none => (none, none, none)

/-- Lines 136-146 and 207-216: travel distance in miles from a truthy
route distance, else the great-circle miles. -/
def travelFrom (route : Option RouteResult) (miles : Option ℚ) : Option ℚ :=
  match route with
  | some r =>
    match r.distance_meters with
    | some dm => if dm = 0 then miles else some (dm / (1609344/1000))
    | none => miles
  | none => miles

/-- Lines 150-161 and 218-228: gas cost (`VEHICLE_MPG = 30.0`,
`GAS_PRICE_PER_GALLON = 3.50`) from a truthy travel distance, split by
the listed seats (fallback divisor 1). -/
def costFrom (travel : Option ℚ) (p : PoolIn) : Option ℚ × Option ℚ :=
  match travel with
  | some t =>
    if t = 0 then (none, none)
    else
      let total := (t / 30) * (7/2)
      (some (round2 total), some (round2 (total / (seatsEff p : ℚ))))
  | none => (none, none)

/-- Lines 99-122: the primary duration. A truthy route duration is kept
as `int(round(...))` when `route_result_is_reasonable` accepts it, else
(and on a falsy/absent route duration) the great-circle estimate. -/
def primaryDur (route1 : Option RouteResult) (miles : Option ℚ) : Option ℤ :=
  match route1 with
  | some r =>
    match r.duration_seconds with
    | some q =>
      if q = 0 then est_from_miles miles
      else if route_result_is_reasonable (some r) miles 86400 10 = false then
        est_from_miles miles
      else some (pyround q)
    | none => est_from_miles miles
  | none => est_from_miles miles

/-- The per-pool body of `listings` (lines 70-236 and the line-270
default).  Line 72 sets `p.eta_seconds = None` before line 81 checks
`p.eta_seconds is not None`, so the check reads the freshly assigned
`None` (`etaAtCheck` below), never the persisted input value: the
persisted branch (lines 81-96) is unreachable and the computed branch
always runs. -/
def resolveListing (p : PoolIn) (miles : Option ℚ) (route1 route2 : Option RouteResult) :
    ListingOut :=
  let etaAtCheck : Option ℤ := none
  match etaAtCheck with
  | some dur =>
    { eta_seconds := some dur, eta_human := some (humanize dur),
      eta_arrival := p.depart_time.map (fun t => t + dur),
      eta_seconds_display := none, eta_human_display := none, eta_arrival_display := none,
      eta_flagged := false, travel_distance_miles := none,
      cost_total := none, cost_per_rider := none, network_calls := 0 }
  | none =>
    if coordsTruthy p then
      let dur := primaryDur route1 miles
      let (es, eh, ea) := setEta dur p.depart_time
      let _travel_first := travelFrom route1 miles
      let _cost_first := costFrom _travel_first p
      let est := est_from_miles miles
      let adjust : Bool :=
        match es, est, miles with
        | some e, some ev, some m =>
          if e ≠ 0 ∧ ev ≠ 0 ∧ 4 * 3600 < e ∧ ev * 5 < e ∧ m < 10 then true else false
        | _, _, _ => false
      let (esd, ehd, ead, _flag_line189) :=
        if adjust then
          match est with
          | some ev =>
            let adj := max 60 (pyround ((ev : ℚ) * (12/10)))
            (some adj, some (humanize adj), p.depart_time.map (fun t => t + adj), true)
          | none => (es, eh, ea, false)
        else (es, eh, ea, false)
      let flagged : Bool :=
        match es with
        | some e => if e ≠ 0 ∧ 21600 < e then true else false
        | none => false
      let travel := travelFrom route2 miles
      let (ct, cpr) := costFrom travel p
      { eta_seconds := es, eta_human := eh, eta_arrival := ea,
        eta_seconds_display := esd, eta_human_display := ehd, eta_arrival_display := ead,
        eta_flagged := flagged, travel_distance_miles := travel,
        cost_total := ct, cost_per_rider := cpr, network_calls := 2 }
    else
      { eta_seconds := none, eta_human := none, eta_arrival := none,
        eta_seconds_display := none, eta_human_display := none, eta_arrival_display := none,
        eta_flagged := false, travel_distance_miles := none,
        cost_total := none, cost_per_rider := none, network_calls := 0 }

/-! ## Distance estimator (`geo.haversine_miles`, lines 9-18)

Modelled over the reals, since it is the one transcendental computation
of the subsystem. -/

/-- Source: `math.radians`. -/
noncomputable def radians (x : ℝ) : ℝ :=
  x * Real.pi / 180

/-- The arithmetic body of `geo.haversine_miles` on present inputs:
haversine formula with Earth radius `R = 3958.8` miles. -/
noncomputable def hav_val (lat1 lon1 lat2 lon2 : ℝ) : ℝ :=
  let R : ℝ := 3958.8
  let dlat := radians (lat2 - lat1)
  let dlon := radians (lon2 - lon1)
  let a := Real.sin (dlat / 2) ^ 2 +
    Real.cos (radians lat1) * Real.cos (radians lat2) * Real.sin (dlon / 2) ^ 2
  let c := 2 * Real.arcsin (Real.sqrt a)
  R * c

/-- Source: `geo.haversine_miles(lat1, lon1, lat2, lon2)`: `None` when any input
is `None` (`if None in (lat1, lon1, lat2, lon2)`), else `hav_val`. -/
noncomputable def haversine_miles : Option ℝ → Option ℝ → Option ℝ → Option ℝ → Option ℝ
  | some a, some b, some c, some d => some (hav_val a b c d)
  | none, _, _, _ => none
  | _, none, _, _ => none
  | _, _, none, _ => none
  | _, _, _, none => none

/-! ## Helper lemmas -/

theorem pyround_floor_le (x : ℚ) : Int.floor x ≤ pyround x := by
  simp only [pyround]
  split_ifs <;> omega

theorem pyround_le_floor_add_one (x : ℚ) : pyround x ≤ Int.floor x + 1 := by
  simp only [pyround]
  split_ifs <;> omega

theorem pyround_near (x : ℚ) : |(pyround x : ℚ) - x| ≤ 1/2 := by
  have hf := Int.floor_le x
  have hc := Int.lt_floor_add_one x
  simp only [pyround]
  split_ifs with h1 h2 h3 <;>
    (rw [abs_le]; constructor <;> push_cast <;> linarith)

theorem pyround_mono {x y : ℚ} (h : x ≤ y) : pyround x ≤ pyround y := by
  have hle : Int.floor x ≤ Int.floor y := Int.floor_le_floor h
  rcases eq_or_lt_of_le hle with heq | hlt
  · simp only [pyround, ← heq]
    split_ifs <;> first | omega | linarith
  · have hx := pyround_le_floor_add_one x
    have hy := pyround_floor_le y
    omega

theorem hav_val_symm (a b c d : ℝ) : hav_val a b c d = hav_val c d a b := by
  simp only [hav_val, radians]
  have h1 : (a - c) * Real.pi / 180 / 2 = -((c - a) * Real.pi / 180 / 2) := by ring
  have h2 : (b - d) * Real.pi / 180 / 2 = -((d - b) * Real.pi / 180 / 2) := by ring
  rw [h1, h2, Real.sin_neg, Real.sin_neg]
  ring_nf

theorem hav_val_self (a b : ℝ) : hav_val a b a b = 0 := by
  simp [hav_val, radians]

/-! ## Claim theorems -/

/-- C9: for all coordinate pairs, `distance_miles(a,b)` equals
`distance_miles(b,a)` (hence within any 1e-9 relative tolerance),
`distance_miles(a,a)` equals 0, and the distance is absent exactly when
any of the four inputs is absent (haversine formula, Earth radius
3958.8 miles). -/
theorem c9_haversine_spec :
    (∀ lat1 lon1 lat2 lon2 : Option ℝ,
      haversine_miles lat1 lon1 lat2 lon2 = haversine_miles lat2 lon2 lat1 lon1)
    ∧ (∀ a b c d : ℝ,
      |hav_val a b c d - hav_val c d a b| ≤ (1/1000000000) * |hav_val a b c d|)
    ∧ (∀ a b : ℝ, haversine_miles (some a) (some b) (some a) (some b) = some 0)
    ∧ (∀ lat1 lon1 lat2 lon2 : Option ℝ,
      haversine_miles lat1 lon1 lat2 lon2 = none ↔
        (lat1 = none ∨ lon1 = none ∨ lat2 = none ∨ lon2 = none)) := by
  refine ⟨?_, ?_, ?_, ?_⟩
  · intro lat1 lon1 lat2 lon2
    cases lat1 <;> cases lon1 <;> cases lat2 <;> cases lon2 <;>
      simp [haversine_miles, hav_val_symm]
  · intro a b c d
    rw [hav_val_symm a b c d, sub_self, abs_zero]
    positivity
  · intro a b
    simp [haversine_miles, hav_val_self]
  · intro lat1 lon1 lat2 lon2
    cases lat1 <;> cases lon1 <;> cases lat2 <;> cases lon2 <;> simp [haversine_miles]

/-- C8 counterexample: at distance 1 meter the rounded duration is 0 both
at 35 mph and at 70 mph, so `duration_seconds(d, speed) >
duration_seconds(d, speed*2)` fails for `d = 1 > 0`, `speed = 35 > 0`
(both sides round to 0). -/
theorem c8_strict_monotonicity_counterexample :
    estimate_duration_seconds_from_meters (some 1) 35 = some 0 ∧
    estimate_duration_seconds_from_meters (some 1) (35 * 2) = some 0 := by
  constructor <;> norm_num [estimate_duration_seconds_from_meters, pyround]

/-- C8 (amended): for every distance `d > 0` and speed `> 0` the rounded
duration at the doubled speed is less than or equal to (not strictly less
than) the one at the original speed; `duration_seconds` converts using
meters per second = mph * 0.44704, rounds to the nearest integer (the
result differs from the exact quotient by at most 1/2), and returns
absent when the distance is absent or the resulting speed is <= 0. -/
theorem c8_duration_spec_amended :
    (∀ mph : ℚ, estimate_duration_seconds_from_meters none mph = none)
    ∧ (∀ (d mph : ℚ), mph ≤ 0 → estimate_duration_seconds_from_meters (some d) mph = none)
    ∧ (∀ (d mph : ℚ), 0 < mph →
        estimate_duration_seconds_from_meters (some d) mph =
          some (pyround (d / (mph * (44704/100000)))) ∧
        |(pyround (d / (mph * (44704/100000))) : ℚ) - d / (mph * (44704/100000))| ≤ 1/2)
    ∧ (∀ (d mph : ℚ), 0 < d → 0 < mph →
        ∃ v1 v2 : ℤ, estimate_duration_seconds_from_meters (some d) mph = some v1 ∧
          estimate_duration_seconds_from_meters (some d) (mph * 2) = some v2 ∧
          v2 ≤ v1) := by
  have hpos : ∀ mph : ℚ, 0 < mph → ¬ (mph * (44704/100000) ≤ 0) := by
    intro mph h
    push_neg
    positivity
  refine ⟨?_, ?_, ?_, ?_⟩
  · intro mph
    simp [estimate_duration_seconds_from_meters]
  · intro d mph h
    have : mph * (44704/100000) ≤ 0 := by
      apply mul_nonpos_of_nonpos_of_nonneg h
      norm_num
    simp [estimate_duration_seconds_from_meters, this]
  · intro d mph h
    refine ⟨by simp [estimate_duration_seconds_from_meters, hpos mph h], pyround_near _⟩
  · intro d mph hd h
    refine ⟨pyround (d / (mph * (44704/100000))),
      pyround (d / (mph * 2 * (44704/100000))), ?_, ?_, ?_⟩
    · simp [estimate_duration_seconds_from_meters, hpos mph h]
    · have h2 : (0:ℚ) < mph * 2 := by linarith
      simp [estimate_duration_seconds_from_meters, hpos (mph * 2) h2]
    · apply pyround_mono
      gcongr
      linarith

/-- Witness for the amended C8 theorem at concrete inputs. -/
theorem c8_duration_spec_amended_witness :
    estimate_duration_seconds_from_meters (some 100) (-3) = none ∧
    (∃ v1 v2 : ℤ, estimate_duration_seconds_from_meters (some 100) 35 = some v1 ∧
      estimate_duration_seconds_from_meters (some 100) (35 * 2) = some v2 ∧ v2 ≤ v1) :=
  ⟨c8_duration_spec_amended.2.1 100 (-3) (by norm_num),
   c8_duration_spec_amended.2.2.2 100 35 (by norm_num) (by norm_num)⟩

/-- C4: the decision cascade of `route_result_is_reasonable` at the
default bounds (86400 s, factor 10): false for an absent route; true when
either metric is missing; false for duration 100000 regardless of the
distance value; once the duration bound passes, true when the
straight-line distance is not computable or non-positive; false when the
distance exceeds 10 times the straight-line meters; false when the 35-mph
straight-line estimate `e` is available (non-zero) and `duration / e > 5`;
and true when every check passes. -/
theorem c4_route_result_is_reasonable_spec :
    (∀ (m : Option ℚ) (md mr : ℚ), route_result_is_reasonable none m md mr = false)
    ∧ (∀ (dm : ℚ) (m : Option ℚ),
        route_result_is_reasonable (some ⟨some dm, none⟩) m 86400 10 = true)
    ∧ (∀ (dq : ℚ) (m : Option ℚ),
        route_result_is_reasonable (some ⟨none, some dq⟩) m 86400 10 = true)
    ∧ (∀ (dm : ℚ) (m : Option ℚ),
        route_result_is_reasonable (some ⟨some dm, some 100000⟩) m 86400 10 = false)
    ∧ (∀ dm dq : ℚ, dq ≤ 86400 →
        route_result_is_reasonable (some ⟨some dm, some dq⟩) none 86400 10 = true)
    ∧ (∀ dm dq m : ℚ, dq ≤ 86400 → m * (1609344/1000) ≤ 0 →
        route_result_is_reasonable (some ⟨some dm, some dq⟩) (some m) 86400 10 = true)
    ∧ (∀ dm dq m : ℚ, dq ≤ 86400 → 0 < m * (1609344/1000) →
        10 < dm / (m * (1609344/1000)) →
        route_result_is_reasonable (some ⟨some dm, some dq⟩) (some m) 86400 10 = false)
    ∧ (∀ (dm dq m : ℚ) (e : ℤ), dq ≤ 86400 → 0 < m * (1609344/1000) →
        dm / (m * (1609344/1000)) ≤ 10 →
        estimate_duration_seconds_from_meters (some (m * (1609344/1000))) 35 = some e →
        e ≠ 0 → 5 < dq / (e : ℚ) →
        route_result_is_reasonable (some ⟨some dm, some dq⟩) (some m) 86400 10 = false)
    ∧ (∀ (dm dq m : ℚ) (e : ℤ), dq ≤ 86400 → 0 < m * (1609344/1000) →
        dm / (m * (1609344/1000)) ≤ 10 →
        estimate_duration_seconds_from_meters (some (m * (1609344/1000))) 35 = some e →
        (e = 0 ∨ dq / (e : ℚ) ≤ 5) →
        route_result_is_reasonable (some ⟨some dm, some dq⟩) (some m) 86400 10 = true) := by
  refine ⟨?_, ?_, ?_, ?_, ?_, ?_, ?_, ?_, ?_⟩
  · intro m md mr
    simp [route_result_is_reasonable]
  · intro dm m
    simp [route_result_is_reasonable]
  · intro dq m
    simp [route_result_is_reasonable]
  · intro dm m
    cases m <;> norm_num [route_result_is_reasonable]
  · intro dm dq h
    simp only [route_result_is_reasonable]
    rw [if_neg (by linarith)]
  · intro dm dq m h1 h2
    simp only [route_result_is_reasonable]
    rw [if_neg (by linarith), if_pos h2]
  · intro dm dq m h1 h2 h3
    simp only [route_result_is_reasonable]
    rw [if_neg (by linarith), if_neg (by linarith), if_pos h3]
  · intro dm dq m e h1 h2 h3 h4 h5 h6
    simp only [route_result_is_reasonable]
    rw [if_neg (by linarith), if_neg (by linarith), if_neg (by linarith), h4]
    simp [h5, h6]
  · intro dm dq m e h1 h2 h3 h4 h5
    simp only [route_result_is_reasonable]
    rw [if_neg (by linarith), if_neg (by linarith), if_neg (by linarith), h4]
    rcases h5 with h5 | h5
    · simp [h5]
    · by_cases he : e = 0
      · simp [he]
      · simp [he, not_lt.mpr h5]

/-- Witness for the C4 theorem: one concrete instance per branch of the
cascade (the 35-mph estimate over 3 straight-line miles is 309 s). -/
theorem c4_route_result_is_reasonable_spec_witness :
    route_result_is_reasonable none none 86400 10 = false ∧
    route_result_is_reasonable (some ⟨some 5000, none⟩) none 86400 10 = true ∧
    route_result_is_reasonable (some ⟨none, some 3000⟩) none 86400 10 = true ∧
    route_result_is_reasonable (some ⟨some 5000, some 100000⟩) none 86400 10 = false ∧
    route_result_is_reasonable (some ⟨some 5000, some 3000⟩) none 86400 10 = true ∧
    route_result_is_reasonable (some ⟨some 5000, some 3000⟩) (some (-1)) 86400 10 = true ∧
    route_result_is_reasonable (some ⟨some 100000, some 3000⟩) (some 3) 86400 10 = false ∧
    route_result_is_reasonable (some ⟨some 5000, some 50000⟩) (some 3) 86400 10 = false ∧
    route_result_is_reasonable (some ⟨some 5000, some 1500⟩) (some 3) 86400 10 = true := by
  have hEst : estimate_duration_seconds_from_meters (some (3 * (1609344/1000))) 35 = some 309 := by
    norm_num [estimate_duration_seconds_from_meters, pyround]
  exact ⟨c4_route_result_is_reasonable_spec.1 none 86400 10,
    c4_route_result_is_reasonable_spec.2.1 5000 none,
    c4_route_result_is_reasonable_spec.2.2.1 3000 none,
    c4_route_result_is_reasonable_spec.2.2.2.1 5000 none,
    c4_route_result_is_reasonable_spec.2.2.2.2.1 5000 3000 (by norm_num),
    c4_route_result_is_reasonable_spec.2.2.2.2.2.1 5000 3000 (-1) (by norm_num) (by norm_num),
    c4_route_result_is_reasonable_spec.2.2.2.2.2.2.1 100000 3000 3 (by norm_num) (by norm_num)
      (by norm_num),
    c4_route_result_is_reasonable_spec.2.2.2.2.2.2.2.1 5000 50000 3 309 (by norm_num)
      (by norm_num) (by norm_num) hEst (by norm_num) (by norm_num),
    c4_route_result_is_reasonable_spec.2.2.2.2.2.2.2.2 5000 1500 3 309 (by norm_num)
      (by norm_num) (by norm_num) hEst (Or.inr (by norm_num))⟩

/-- C5: `route_any` tries Mapbox, then ORS, then OSRM, and returns the
first non-absent adapter result unmodified; the Mapbox adapter returns
absent with no request when its token is absent; in particular with no
Mapbox token and ORS answering `{distance_meters: 50000,
duration_seconds: 3000}` on a 2-coordinate sequence, `route_any` returns
exactly that result. -/
theorem c5_route_any_spec :
    (∀ (hasM hasO : Bool) (coords : List (ℚ × ℚ)) (mN oN sN : Option RouteResult),
      2 ≤ coords.length →
      route_any hasM hasO coords mN oN sN =
        (if hasM = true ∧ mN ≠ none then mN
         else if hasO = true ∧ oN ≠ none then oN
         else sN))
    ∧ (∀ (coords : List (ℚ × ℚ)) (net : Option RouteResult),
        route_mapbox false coords net = none ∧ route_mapbox_request_count false coords = 0)
    ∧ (∀ (a b : ℚ × ℚ) (mN sN : Option RouteResult),
        route_any false true [a, b] mN (some ⟨some 50000, some 3000⟩) sN =
          some ⟨some 50000, some 3000⟩) := by
  refine ⟨?_, ?_, ?_⟩
  · intro hasM hasO coords mN oN sN hlen
    have hl : ¬ (coords.length < 2) := by omega
    cases hasM <;> cases hasO <;>
      cases mN <;> cases oN <;>
        simp [route_any, route_mapbox, route_ors, route_osrm, hl]
  · intro coords net
    exact ⟨rfl, rfl⟩
  · intro a b mN sN
    rfl

/-- Witness for the C5 theorem on a concrete 2-coordinate list. -/
theorem c5_route_any_spec_witness :
    route_any true true [(0, 1), (2, 3)] (some ⟨some 7, some 8⟩) none none =
      (if True ∧ (some (⟨some 7, some 8⟩ : RouteResult) ≠ none) then some ⟨some 7, some 8⟩
       else if True ∧ (none ≠ (none : Option RouteResult)) then none
       else none) := by
  have h := c5_route_any_spec.1 true true [(0, 1), (2, 3)] (some ⟨some 7, some 8⟩) none none
    (by decide)
  simpa using h

/-- C6: `geocode_any` tries ORS (only when its key is configured), then
Mapbox (internally falling back to Nominatim, labelled `'nominatim'`,
when its own token is absent), then Nominatim explicitly; it returns on
the first provider that produces a usable coordinate, with that
provider's name, and `(absent, absent, absent)` when every provider
fails. -/
theorem c6_geocode_any_spec :
    (∀ (hasM : Bool) (addr : String) (mN nN : Option (ℚ × ℚ)) (a b : ℚ),
      addr ≠ "" → a ≠ 0 → b ≠ 0 →
      geocode_any true hasM addr (some (a, b)) mN nN = (some a, some b, some "ors"))
    ∧ (∀ (hasO : Bool) (addr : String) (oN nN : Option (ℚ × ℚ)) (a b : ℚ),
        addr ≠ "" → (hasO = false ∨ oN = none) → a ≠ 0 → b ≠ 0 →
        geocode_any hasO true addr oN (some (a, b)) nN = (some a, some b, some "mapbox"))
    ∧ (∀ (hasO : Bool) (addr : String) (oN mN : Option (ℚ × ℚ)) (a b : ℚ),
        addr ≠ "" → (hasO = false ∨ oN = none) → a ≠ 0 → b ≠ 0 →
        geocode_any hasO false addr oN mN (some (a, b)) = (some a, some b, some "nominatim"))
    ∧ (∀ (hasO hasM : Bool) (addr : String), addr ≠ "" →
        geocode_any hasO hasM addr none none none = (none, none, none)) := by
  refine ⟨?_, ?_, ?_, ?_⟩
  · intro hasM addr mN nN a b haddr ha hb
    simp [geocode_any, geocode_ors, truthyPair, truthyQ, haddr, ha, hb]
  · intro hasO addr oN nN a b haddr ho ha hb
    have hofail : (if hasO = true then geocode_ors hasO addr oN else (none, none)) =
        (none, none) := by
      rcases ho with ho | ho
      · simp [ho]
      · cases hasO <;> simp [geocode_ors, ho]
    simp [geocode_any, haddr, hofail, geocode_mapbox, truthyPair, truthyQ, ha, hb]
  · intro hasO addr oN mN a b haddr ho ha hb
    have hofail : (if hasO = true then geocode_ors hasO addr oN else (none, none)) =
        (none, none) := by
      rcases ho with ho | ho
      · simp [ho]
      · cases hasO <;> simp [geocode_ors, ho]
    simp [geocode_any, haddr, hofail, geocode_mapbox, geocode_nominatim, truthyPair,
      truthyQ, ha, hb]
  · intro hasO hasM addr haddr
    cases hasO <;> cases hasM <;>
      simp [geocode_any, geocode_ors, geocode_mapbox, geocode_nominatim, truthyPair,
        truthyQ, haddr]

/-- Witness for the C6 theorem at concrete inputs. -/
theorem c6_geocode_any_spec_witness :
    geocode_any true true "221B Baker Street" (some (51, -3/25)) none none =
      (some 51, some (-3/25), some "ors") ∧
    geocode_any false true "x" none (some (2, 3)) none = (some 2, some 3, some "mapbox") ∧
    geocode_any false false "x" none none (some (4, 5)) = (some 4, some 5, some "nominatim") ∧
    geocode_any true true "x" none none none = (none, none, none) :=
  ⟨c6_geocode_any_spec.1 true "221B Baker Street" none none 51 (-3/25) (by decide)
      (by norm_num) (by norm_num),
   c6_geocode_any_spec.2.1 false "x" none none 2 3 (by decide) (Or.inl rfl) (by norm_num)
      (by norm_num),
   c6_geocode_any_spec.2.2.1 false "x" none none 4 5 (by decide) (Or.inl rfl) (by norm_num)
      (by norm_num),
   c6_geocode_any_spec.2.2.2 true true "x" (by decide)⟩

/-- C7: the detour computation sets `added = detour_duration -
base_duration` clamped to be non-negative (never negative for any
base/detour pair), and `added` is absent whenever either duration is
unavailable. -/
theorem c7_detour_added_spec :
    (∀ b d : ℤ, addedFrom (some b) (some d) =
      (some (max 0 (d - b)), some (humanize (max 0 (d - b)))))
    ∧ (∀ b d a : ℤ, (addedFrom (some b) (some d)).1 = some a → 0 ≤ a)
    ∧ (∀ bd dd : Option ℤ, bd = none ∨ dd = none → addedFrom bd dd = (none, none))
    ∧ (∀ (plat plong : Option ℚ) (bR dR : Option RouteResult) (mOD m1 m2 : Option ℚ),
        manageBaseDur bR mOD = none ∨ manageDetourDur dR m1 m2 = none →
        manageAdded plat plong bR dR mOD m1 m2 = (none, none)) := by
  have hclamp : ∀ b d : ℤ, (if d - b < 0 then (0:ℤ) else d - b) = max 0 (d - b) := by
    intro b d
    split_ifs <;> omega
  have hnone : ∀ bd dd : Option ℤ, bd = none ∨ dd = none → addedFrom bd dd = (none, none) := by
    intro bd dd h
    rcases h with h | h <;> subst h
    · simp [addedFrom]
    · cases bd <;> simp [addedFrom]
  refine ⟨?_, ?_, ?_, ?_⟩
  · intro b d
    simp only [addedFrom]
    rw [hclamp b d]
  · intro b d a h
    simp only [addedFrom] at h
    split at h <;> simp at h <;> omega
  · exact hnone
  · intro plat plong bR dR mOD m1 m2 h
    by_cases ht : truthyPair plat plong = true
    · simp [manageAdded, ht, hnone _ _ h]
    · simp [manageAdded, ht]

/-- Witness for the C7 theorem at concrete inputs. -/
theorem c7_detour_added_spec_witness :
    addedFrom (some 100) (some 40) = (some (max 0 (40 - 100)), some (humanize (max 0 (40 - 100)))) ∧
    (0:ℤ) ≤ 0 ∧
    addedFrom (some 100) none = (none, none) ∧
    manageAdded (some 1) (some 1) none none none none none = (none, none) := by
  refine ⟨c7_detour_added_spec.1 100 40, ?_, c7_detour_added_spec.2.2.1 (some 100) none
    (Or.inr rfl), c7_detour_added_spec.2.2.2 (some 1) (some 1) none none none none none ?_⟩
  · exact c7_detour_added_spec.2.1 100 40 0 (by decide)
  · right
    rfl

/-- C10: success of a geocode attempt is the truthiness of `lat and lon`,
so a provider coordinate with a zero latitude or longitude is discarded:
when every provider answers a zero-component coordinate `geocode_any`
returns `(absent, absent, absent)`, and the same test makes the manage
detour computation skip a zero-component pickup coordinate. -/
theorem c10_zero_coordinate_truthiness :
    (∀ (hasO hasM : Bool) (addr : String) (a b c d e f : ℚ),
      addr ≠ "" → (a = 0 ∨ b = 0) → (c = 0 ∨ d = 0) → (e = 0 ∨ f = 0) →
      geocode_any hasO hasM addr (some (a, b)) (some (c, d)) (some (e, f)) =
        (none, none, none))
    ∧ (∀ (lat lon : ℚ) (bR dR : Option RouteResult) (mOD m1 m2 : Option ℚ),
        (lat = 0 ∨ lon = 0) →
        manageAdded (some lat) (some lon) bR dR mOD m1 m2 = (none, none)) := by
  have hzero : ∀ x y : ℚ, (x = 0 ∨ y = 0) → truthyPair (some x) (some y) = false := by
    intro x y h
    rcases h with h | h <;> subst h <;>
      simp [truthyPair, truthyQ, Bool.and_eq_false_iff]
  refine ⟨?_, ?_⟩
  · intro hasO hasM addr a b c d e f haddr hab hcd hef
    have hnn : truthyPair none none = false := rfl
    cases hasO <;> cases hasM <;>
      simp [geocode_any, geocode_ors, geocode_mapbox, geocode_nominatim, haddr,
        hzero a b hab, hzero c d hcd, hzero e f hef, hnn]
  · intro lat lon bR dR mOD m1 m2 h
    simp [manageAdded, hzero lat lon h]

/-- Witness for the C10 theorem at concrete inputs (latitude 0 is the
equator, longitude 0 the prime meridian). -/
theorem c10_zero_coordinate_truthiness_witness :
    geocode_any true true "Null Island" (some (0, 5)) (some (6, 0)) (some (0, 0)) =
      (none, none, none) ∧
    manageAdded (some 0) (some 5) (some ⟨some 1000, some 600⟩) (some ⟨some 1500, some 900⟩)
      (some 1) (some 1) (some 1) = (none, none) :=
  ⟨c10_zero_coordinate_truthiness.1 true true "Null Island" 0 5 6 0 0 0 (by decide)
      (Or.inl rfl) (Or.inr rfl) (Or.inl rfl),
   c10_zero_coordinate_truthiness.2 0 5 (some ⟨some 1000, some 600⟩)
      (some ⟨some 1500, some 900⟩) (some 1) (some 1) (some 1) (Or.inl rfl)⟩

/-- The 35-mph great-circle estimate over 3 straight-line miles is 309
seconds (3 * 1609.344 / (35 * 0.44704) rounds to 309). -/
theorem est_from_miles_three : est_from_miles (some 3) = some 309 := by
  norm_num [est_from_miles, estimate_duration_seconds_from_meters, pyround]

/-- C1 (code bug): a pool with a persisted `eta_seconds = 1200`,
`depart_time = 0`, truthy coordinates 3 straight-line miles apart, and a
routing provider answering 1500 s / 5000 m.  The claim expects the
persisted value to be used: `eta_human = "20m"` (and indeed
`humanize 1200 = "20m"`), arrival `0 + 1200`, `flagged = false`, and no
network call.  The code instead resets `p.eta_seconds` to `None`
(line 72) before the line-81 check, so the persisted branch is dead: it
makes two `route_any` network calls and reports the freshly routed
1500 s ("25m"). -/
theorem c1_persisted_eta_is_discarded :
    humanize 1200 = "20m" ∧
    (resolveListing ⟨some 1200, some 0, some 1, some 1, some 1, some 1, some 1⟩ (some 3)
        (some ⟨some 5000, some 1500⟩) (some ⟨some 5000, some 1500⟩)).eta_seconds = some 1500 ∧
    (resolveListing ⟨some 1200, some 0, some 1, some 1, some 1, some 1, some 1⟩ (some 3)
        (some ⟨some 5000, some 1500⟩) (some ⟨some 5000, some 1500⟩)).eta_human = some "25m" ∧
    (resolveListing ⟨some 1200, some 0, some 1, some 1, some 1, some 1, some 1⟩ (some 3)
        (some ⟨some 5000, some 1500⟩) (some ⟨some 5000, some 1500⟩)).network_calls = 2 := by
  have hrr : route_result_is_reasonable (some ⟨some 5000, some 1500⟩) (some 3) 86400 10
      = true := by
    norm_num [route_result_is_reasonable, estimate_duration_seconds_from_meters, pyround]
  have hpd : primaryDur (some ⟨some 5000, some 1500⟩) (some 3) = some 1500 := by
    norm_num [primaryDur, hrr, pyround]
  have hc : coordsTruthy ⟨some 1200, some 0, some 1, some 1, some 1, some 1, some 1⟩
      = true := by
    norm_num [coordsTruthy, truthyQ]
  have hh : humanize 1500 = "25m" := by decide
  refine ⟨by decide, ?_, ?_, ?_⟩ <;>
    norm_num [resolveListing, hc, hpd, setEta, hh]

/-- C2 (code bug): a trip whose accepted route duration is 18000 s
(> 4 h; the route's distance field is missing, so the plausibility check
cannot judge it) over 3 straight-line miles (estimate 309 s, so
18000 > 5 * 309 and 3 < 10 miles).  The display adjustment fires as the
claim says: the display ETA becomes `max(60, round(309 * 1.2)) = 371`
with recomputed human string and arrival, and the underlying
`eta_seconds` stays 18000.  But the claim's `flagged = true` fails: the
`p.eta_flagged = True` of line 189 is unconditionally overwritten by
line 193 with the 6-hour test, and 18000 <= 21600, so the resolution ends
with `flagged = false`. -/
theorem c2_display_adjustment_flag_overwritten :
    (resolveListing ⟨none, some 0, some 1, some 1, some 1, some 1, some 1⟩ (some 3)
        (some ⟨none, some 18000⟩) (some ⟨none, some 18000⟩)).eta_seconds = some 18000 ∧
    (resolveListing ⟨none, some 0, some 1, some 1, some 1, some 1, some 1⟩ (some 3)
        (some ⟨none, some 18000⟩) (some ⟨none, some 18000⟩)).eta_seconds_display = some 371 ∧
    (resolveListing ⟨none, some 0, some 1, some 1, some 1, some 1, some 1⟩ (some 3)
        (some ⟨none, some 18000⟩) (some ⟨none, some 18000⟩)).eta_human_display = some "6m" ∧
    (resolveListing ⟨none, some 0, some 1, some 1, some 1, some 1, some 1⟩ (some 3)
        (some ⟨none, some 18000⟩) (some ⟨none, some 18000⟩)).eta_arrival_display = some 371 ∧
    (resolveListing ⟨none, some 0, some 1, some 1, some 1, some 1, some 1⟩ (some 3)
        (some ⟨none, some 18000⟩) (some ⟨none, some 18000⟩)).eta_flagged = false := by
  have hrr : route_result_is_reasonable (some ⟨none, some 18000⟩) (some 3) 86400 10
      = true := by
    norm_num [route_result_is_reasonable]
  have hpd : primaryDur (some ⟨none, some 18000⟩) (some 3) = some 18000 := by
    norm_num [primaryDur, hrr, pyround]
  have hc : coordsTruthy ⟨none, some 0, some 1, some 1, some 1, some 1, some 1⟩ = true := by
    norm_num [coordsTruthy, truthyQ]
  have hadj : (60 : ℤ) ⊔ pyround ((1854 : ℚ) / 5) = 371 := by
    have h371 : pyround ((1854 : ℚ) / 5) = 371 := by norm_num [pyround]
    rw [h371]
    decide
  have hh : humanize 371 = "6m" := by decide
  refine ⟨?_, ?_, ?_, ?_, ?_⟩ <;>
    norm_num [resolveListing, hc, hpd, setEta, est_from_miles_three, hadj, hh]

/-- C3 counterexample: trip endpoints 3 straight-line miles apart, no
persisted ETA, routing provider answering 50000 s / 5000 m.  The
plausibility check rejects the route and the resolution falls back to
the 309-second great-circle estimate, as the claim states — but the
result is NOT marked flagged: 309 is far below the 21600-second
threshold of line 193, so `eta_flagged` ends `false`, refuting the
claim's `flagged = true`. -/
theorem c3_flagged_counterexample :
    route_result_is_reasonable (some ⟨some 5000, some 50000⟩) (some 3) 86400 10 = false ∧
    (resolveListing ⟨none, some 0, some 1, some 1, some 1, some 1, some 1⟩ (some 3)
        (some ⟨some 5000, some 50000⟩) (some ⟨some 5000, some 50000⟩)).eta_seconds
      = some 309 ∧
    (resolveListing ⟨none, some 0, some 1, some 1, some 1, some 1, some 1⟩ (some 3)
        (some ⟨some 5000, some 50000⟩) (some ⟨some 5000, some 50000⟩)).eta_flagged
      ≠ true := by
  have hrr : route_result_is_reasonable (some ⟨some 5000, some 50000⟩) (some 3) 86400 10
      = false := by
    norm_num [route_result_is_reasonable, estimate_duration_seconds_from_meters, pyround]
  have hpd : primaryDur (some ⟨some 5000, some 50000⟩) (some 3) = some 309 := by
    norm_num [primaryDur, hrr, est_from_miles_three]
  have hc : coordsTruthy ⟨none, some 0, some 1, some 1, some 1, some 1, some 1⟩ = true := by
    norm_num [coordsTruthy, truthyQ]
  refine ⟨hrr, ?_, ?_⟩ <;>
    norm_num [resolveListing, hc, hpd, setEta, est_from_miles_three]

/-- C3 (amended): with the trip 3 straight-line miles apart and the
routing provider answering 50000 s / 5000 m, the plausibility check
rejects the route (50000 far exceeds 5 times the 309-second 35-mph
estimate), the resolution falls back to the great-circle estimate of
309 seconds — and the result is marked `flagged = false`, since the only
flag the code sets is the 21600-second threshold of line 193 and
309 <= 21600. -/
theorem c3_fallback_amended :
    route_result_is_reasonable (some ⟨some 5000, some 50000⟩) (some 3) 86400 10 = false ∧
    est_from_miles (some 3) = some 309 ∧
    (resolveListing ⟨none, some 0, some 1, some 1, some 1, some 1, some 1⟩ (some 3)
        (some ⟨some 5000, some 50000⟩) (some ⟨some 5000, some 50000⟩)).eta_seconds
      = some 309 ∧
    (resolveListing ⟨none, some 0, some 1, some 1, some 1, some 1, some 1⟩ (some 3)
        (some ⟨some 5000, some 50000⟩) (some ⟨some 5000, some 50000⟩)).eta_flagged
      = false := by
  have hrr : route_result_is_reasonable (some ⟨some 5000, some 50000⟩) (some 3) 86400 10
      = false := by
    norm_num [route_result_is_reasonable, estimate_duration_seconds_from_meters, pyround]
  have hpd : primaryDur (some ⟨some 5000, some 50000⟩) (some 3) = some 309 := by
    norm_num [primaryDur, hrr, est_from_miles_three]
  have hc : coordsTruthy ⟨none, some 0, some 1, some 1, some 1, some 1, some 1⟩ = true := by
    norm_num [coordsTruthy, truthyQ]
  refine ⟨hrr, est_from_miles_three, ?_, ?_⟩ <;>
    norm_num [resolveListing, hc, hpd, setEta, est_from_miles_three]

end PoolParty
